import Mathlib

/-!
Verification of the MediSupply bulk product-import pipeline.

Shallow embedding of:
- the routing decision of `POST /api/productos/importar-csv`
  (`productos_microservice/app/routes/productos_bp.py`),
- the synchronous CSV import loop
  (`productos_microservice/app/services/csv_service.py`),
- the web batch validator
  (`producto-inventario-web/src/services/productos.py`),
- the SQS worker message handler
  (`productos_microservice/app/workers/sqs_worker.py`),
- the `ImportJob` state mutators
  (`productos_microservice/app/models/import_job.py`),
- the SQS publisher parameters
  (`productos_microservice/app/services/sqs_service.py`).
-/

set_option maxRecDepth 40000

/-- Python `str.strip()` on a list of characters: drop whitespace from both
ends (as in `contenido.strip()`, `productos_bp.py:346`). -/
def pyStrip (cs : List Char) : List Char :=
  ((cs.dropWhile Char.isWhitespace).reverse.dropWhile Char.isWhitespace).reverse

/-- Python `str.strip()` on a `String`. -/
def pyStripCad (s : String) : String := String.mk (pyStrip s.data)

/-- Python `s.split(sep)` for a one-character separator: the segments of the
character list between occurrences of `sep`.  `''.split(c) = ['']` as in
Python. -/
def pySplit (sep : Char) : List Char → List (List Char)
  | [] => [[]]
  | c :: rest =>
    if c = sep then [] :: pySplit sep rest
    else
      match pySplit sep rest with
      | [] => [[c]]
      | l :: ls => (c :: l) :: ls

/-- Python `sep.join(xs)`, written with structural recursion. -/
def pyJoin (sep : String) : List String → String
  | [] => ""
  | [x] => x
  | x :: y :: xs => x ++ sep ++ pyJoin sep (y :: xs)

/-! ## Routing decision (`productos_bp.py`, `importar_productos_csv`) -/

/-- Constant `UMBRAL_ASINCRONO = 100` (`productos_bp.py:350`). -/
def UMBRAL_ASINCRONO : Nat := 100

/-- Count `num_filas = len(contenido.strip().split('\n')) - 1` with
`lineas = contenido.strip().split('\n')` (`productos_bp.py:346-347`): the
line count of the raw upload minus one for the header. -/
def num_filas (contenido : String) : Nat :=
  (pySplit '\n' (pyStrip contenido.data)).length - 1

/-- Decision `usar_asincrono = num_filas >= UMBRAL_ASINCRONO or forzar_asincrono`
(`productos_bp.py:351`). -/
def usar_asincrono (contenido : String) (forzar_asincrono : Bool) : Bool :=
  decide (UMBRAL_ASINCRONO ≤ num_filas contenido) || forzar_asincrono

/-- Raw CSV contents with one header line and `n` data lines, used to test
the routing boundary. -/
def csvConFilas (n : Nat) : String :=
  "nombre,codigo_sku" ++ String.join (List.replicate n "\nfila,a")

/-! ## Dates and numbers (Python library behaviour used by the validators) -/

/-- Bound check `lo ≤ x ≤ hi` as a boolean. -/
def entre (lo x hi : Nat) : Bool := decide (lo ≤ x) && decide (x ≤ hi)

/-- Leap-year rule of `datetime.date`. -/
def esBisiesto (y : Nat) : Bool := (y % 4 == 0 && y % 100 != 0) || y % 400 == 0

/-- Days of month `m` in year `y`. -/
def diasEnMes (y m : Nat) : Nat :=
  if m == 2 then (if esBisiesto y then 29 else 28)
  else if m == 4 || m == 6 || m == 9 || m == 11 then 30
  else 31

/-- A calendar date. -/
structure Fecha where
  anio : Nat
  mes : Nat
  dia : Nat
deriving DecidableEq

/-- The validity check of the `datetime.date` constructor. -/
def fechaValida (y m d : Nat) : Bool :=
  entre 1 y 9999 && entre 1 m 12 && entre 1 d (diasEnMes y m)

/-- All characters are ASCII decimal digits. -/
def todosDigitos (cs : List Char) : Bool := cs.all Char.isDigit

/-- Numeric value of a digit run. -/
def valorDigitos (cs : List Char) : Nat :=
  cs.foldl (fun n c => n * 10 + (c.toNat - 48)) 0

/-- Parse `datetime.strptime(s, '%d<sep>%m<sep>%Y')` as used by
`ProductoValidator.validar_fecha` (`validators.py:87`, `sep = '/'`) and
`try_parse_date` (`productos.py:167`, `sep ∈ {'/', '-'}`): day and month are
one or two digits within the pattern ranges, the year exactly four digits,
and the triple must be a constructible calendar date. -/
def strptimeDiaMesAnio (sep : Char) (s : String) : Option Fecha :=
  match pySplit sep s.data with
  | [d, m, y] =>
    if todosDigitos d && todosDigitos m && todosDigitos y
        && (d.length == 1 || d.length == 2) && entre 1 (valorDigitos d) 31
        && (m.length == 1 || m.length == 2) && entre 1 (valorDigitos m) 12
        && y.length == 4
        && fechaValida (valorDigitos y) (valorDigitos m) (valorDigitos d) then
      some ⟨valorDigitos y, valorDigitos m, valorDigitos d⟩
    else none
  | _ => none

/-- The optional time tail `HH:MM[:SS]` accepted after the date by
`datetime.fromisoformat`; fractional seconds and offsets are not modelled
(product CSV dates never carry them). -/
def tiempoIsoValido : List Char → Bool
  | [] => true
  | [h1, h2, ':', m1, m2] =>
    todosDigitos [h1, h2, m1, m2] && entre 0 (valorDigitos [h1, h2]) 23
      && entre 0 (valorDigitos [m1, m2]) 59
  | [h1, h2, ':', m1, m2, ':', s1, s2] =>
    todosDigitos [h1, h2, m1, m2, s1, s2] && entre 0 (valorDigitos [h1, h2]) 23
      && entre 0 (valorDigitos [m1, m2]) 59 && entre 0 (valorDigitos [s1, s2]) 59
  | _ => false

/-- Parse `datetime.fromisoformat` on the `YYYY-MM-DD[<sep>HH:MM[:SS]]` fragment
exercised by this code base (`productos.py:163`). -/
def pyFromIsoformat (s : String) : Option Fecha :=
  match s.data with
  | y1 :: y2 :: y3 :: y4 :: '-' :: m1 :: m2 :: '-' :: d1 :: d2 :: resto =>
    let y := valorDigitos [y1, y2, y3, y4]
    let m := valorDigitos [m1, m2]
    let d := valorDigitos [d1, d2]
    if todosDigitos [y1, y2, y3, y4, m1, m2, d1, d2] && fechaValida y m d
        && (match resto with
            | [] => true
            | _ :: cola => tiempoIsoValido cola) then
      some ⟨y, m, d⟩
    else none
  | _ => none

/-- Function `try_parse_date` (`productos.py:157-172`): ISO first, then `%d/%m/%Y`,
then `%d-%m-%Y`; `None` on a falsy string or when no format matches. -/
def try_parse_date (s : String) : Option Fecha :=
  if s = "" then none
  else
    match pyFromIsoformat s with
    | some f => some f
    | none =>
      match strptimeDiaMesAnio '/' s with
      | some f => some f
      | none => strptimeDiaMesAnio '-' s

/-- Method `ProductoValidator.validar_fecha` (`validators.py:82-94`): parses only
`%d/%m/%Y`; any other format raises `FECHA_FORMATO_INVALIDO`, modelled as
`none`. -/
def validar_fecha (s : String) : Option Fecha := strptimeDiaMesAnio '/' s

/-- Leading run of decimal digits and the remainder. -/
def tomaDigitos : List Char → List Char × List Char
  | [] => ([], [])
  | c :: resto =>
    if c.isDigit then
      let (ds, r) := tomaDigitos resto
      (c :: ds, r)
    else ([], c :: resto)

/-- Optional sign: whether negative, and the remainder. -/
def tomaSigno : List Char → Bool × List Char
  | '-' :: resto => (true, resto)
  | '+' :: resto => (false, resto)
  | cs => (false, cs)

/-- The exact value `num / den` of a parsed float literal, with `den` a
positive power of ten.  It stands in for the Python float: binary rounding
can change neither the success of parsing nor the sign, the only two facts
the validators consume. -/
structure ValorDecimal where
  num : Int
  den : Nat
deriving DecidableEq

/-- Exponent tail `[sign]digits` of a Python float literal. -/
def pyExponente (x : ValorDecimal) (cs : List Char) : Option ValorDecimal :=
  let (negE, cs1) := tomaSigno cs
  let (ds, resto) := tomaDigitos cs1
  if ds = [] ∨ resto ≠ [] then none
  else if negE then some ⟨x.num, x.den * 10 ^ valorDigitos ds⟩
  else some ⟨x.num * Int.ofNat (10 ^ valorDigitos ds), x.den⟩

/-- Python `float(s)` on the decimal fragment `[sign]digits[.digits]` /
`[sign].digits` with an optional `e`/`E` exponent, surrounding whitespace
stripped.  `inf`, `nan` and underscore separators are not modelled (none
occur in product rows). -/
def pyFloat (s : String) : Option ValorDecimal :=
  let cs := pyStrip s.data
  let (neg, cs1) := tomaSigno cs
  let (ent, cs2) := tomaDigitos cs1
  let (frac, cs3) :=
    match cs2 with
    | '.' :: resto => tomaDigitos resto
    | _ => ([], cs2)
  if ent = [] ∧ frac = [] then none
  else
    let mant : ValorDecimal := ⟨Int.ofNat (valorDigitos (ent ++ frac)), 10 ^ frac.length⟩
    let conSigno := if neg then ⟨-mant.num, mant.den⟩ else mant
    match cs3 with
    | [] => some conSigno
    | 'e' :: resto => pyExponente conSigno resto
    | 'E' :: resto => pyExponente conSigno resto
    | _ => none

/-- Python `int(s)`: optional sign then digits, surrounding whitespace
stripped; underscore separators not modelled. -/
def pyInt (s : String) : Option Int :=
  let cs := pyStrip s.data
  let (neg, cs1) := tomaSigno cs
  let (ds, resto) := tomaDigitos cs1
  if ds = [] ∨ resto ≠ [] then none
  else if neg then some (-(valorDigitos ds : Int))
  else some (valorDigitos ds : Int)

/-! ## Web batch validator (`producto-inventario-web/src/services/productos.py`) -/

/-- A CSV row as handed over by `csv.DictReader`: each known column maps to
its raw cell text; `none` when the column is absent from the file. -/
structure FilaWeb where
  nombre : Option String := none
  codigo_sku : Option String := none
  categoria : Option String := none
  precio_unitario : Option String := none
  condiciones_almacenamiento : Option String := none
  fecha_vencimiento : Option String := none
  proveedor_id : Option String := none
  fecha_vencimiento_cert : Option String := none
deriving DecidableEq

/-- Lookup `row.get(f)` over the column names the validator reads. -/
def getCampo (row : FilaWeb) (f : String) : Option String :=
  if f = "nombre" then row.nombre
  else if f = "codigo_sku" then row.codigo_sku
  else if f = "categoria" then row.categoria
  else if f = "precio_unitario" then row.precio_unitario
  else if f = "condiciones_almacenamiento" then row.condiciones_almacenamiento
  else if f = "fecha_vencimiento" then row.fecha_vencimiento
  else if f = "proveedor_id" then row.proveedor_id
  else if f = "fecha_vencimiento_cert" then row.fecha_vencimiento_cert
  else none

/-- Columns `required_fields` (`productos.py:120-128`). -/
def camposRequeridosWeb : List String :=
  ["nombre", "codigo_sku", "categoria", "precio_unitario",
   "condiciones_almacenamiento", "fecha_vencimiento", "proveedor_id"]

/-- Truthiness of `row.get(f) and str(row.get(f)).strip()`
(`productos.py:138`). -/
def campoPresente (v : Option String) : Bool :=
  match v with
  | none => false
  | some s => !s.isEmpty && !(pyStripCad s).isEmpty

/-- Value `(row.get(k) or '').strip()`. -/
def valorRecortado (v : Option String) : String := pyStripCad (v.getD "")

/-- Closure `procesar_producto_batch.validate_row` (`productos.py:136-184`): the
row's error strings and the updated `skus_seen` (here an ordered list). -/
def validate_row (skus_seen : List String) (row : FilaWeb) :
    List String × List String :=
  let missing := camposRequeridosWeb.filter fun f => !campoPresente (getCampo row f)
  let errs0 : List String :=
    if missing.isEmpty then [] else ["Campos faltantes: " ++ pyJoin ", " missing]
  let sku := valorRecortado row.codigo_sku
  let errs1 :=
    if sku ≠ "" ∧ skus_seen.contains sku = true then errs0 ++ ["SKU duplicado en archivo"]
    else errs0
  let seen1 :=
    if sku ≠ "" ∧ skus_seen.contains sku = false then skus_seen ++ [sku] else skus_seen
  let precio := valorRecortado row.precio_unitario
  let errs2 :=
    if precio ≠ "" ∧ pyFloat precio = none then errs1 ++ ["Precio inválido"] else errs1
  let fecha := valorRecortado row.fecha_vencimiento
  let errs3 :=
    if fecha ≠ "" ∧ try_parse_date fecha = none then errs2 ++ ["Fecha inválida"] else errs2
  let fechaCert := valorRecortado row.fecha_vencimiento_cert
  let errs4 :=
    if fechaCert ≠ "" ∧ try_parse_date fechaCert = none then
      errs3 ++ ["Fecha de certificación inválida"]
    else errs3
  (errs4, seen1)

/-- One recorded failure `{'fila': idx, 'errors': row_errors, 'row': row}`
(`productos.py:190`). -/
structure ErrorFilaWeb where
  fila : Nat
  errors : List String
  row : FilaWeb
deriving DecidableEq

/-- Row normalization applied to a valid row (`productos.py:194`). -/
def normalizaFila (row : FilaWeb) : FilaWeb where
  nombre := row.nombre.map pyStripCad
  codigo_sku := row.codigo_sku.map pyStripCad
  categoria := row.categoria.map pyStripCad
  precio_unitario := row.precio_unitario.map pyStripCad
  condiciones_almacenamiento := row.condiciones_almacenamiento.map pyStripCad
  fecha_vencimiento := row.fecha_vencimiento.map pyStripCad
  proveedor_id := row.proveedor_id.map pyStripCad
  fecha_vencimiento_cert := row.fecha_vencimiento_cert.map pyStripCad

/-- The `for idx, row in enumerate(reader, start=1)` loop of
`procesar_producto_batch` (`productos.py:186-195`), recursing over the rows
with the 1-based index and the running `skus_seen`:
`(total, successful, errors, valid_rows)`. -/
def batchAux (idx : Nat) (seen : List String) :
    List FilaWeb → Nat × Nat × List ErrorFilaWeb × List FilaWeb
  | [] => (0, 0, [], [])
  | row :: resto =>
    let ev := validate_row seen row
    let r := batchAux (idx + 1) ev.2 resto
    if ev.1.isEmpty then
      (r.1 + 1, r.2.1 + 1, r.2.2.1, normalizaFila row :: r.2.2.2)
    else
      (r.1 + 1, r.2.1, ⟨idx, ev.1, row⟩ :: r.2.2.1, r.2.2.2)

/-- Summary dict built at `productos.py:205-211`. -/
structure ResumenWeb where
  total : Nat
  successful : Nat
  failed : Nat
  errors : List ErrorFilaWeb
  valid_rows : List FilaWeb
deriving DecidableEq

/-- Function `procesar_producto_batch` (`productos.py:83-212`) restricted to its
validation loop and summary; reading bytes and restoring the stream are
I/O. -/
def procesar_producto_batch (rows : List FilaWeb) : ResumenWeb :=
  let r := batchAux 1 [] rows
  { total := r.1, successful := r.2.1, failed := r.2.2.1.length,
    errors := r.2.2.1, valid_rows := r.2.2.2 }

/-- The error list `validate_row` computes for the row at 0-based position
`j`, with the `skus_seen` state threaded through the earlier rows. -/
def erroresEnFila (seen : List String) : List FilaWeb → Nat → List String
  | [], _ => []
  | row :: _, 0 => (validate_row seen row).1
  | row :: resto, j + 1 => erroresEnFila (validate_row seen row).2 resto j

/-! ## Microservice CSV import (`productos_microservice/app/services/csv_service.py`) -/

/-- A cleaned CSV row (`leer_y_validar_csv`, `csv_service.py:109-110`:
values stripped, empty cells turned into `None`) with its 1-based file line
`fila`.  For the seven required columns, `none` covers both "column absent"
and "cell empty" — every use treats the two alike.  For the five optional
columns those cases differ (`dict.get` with a default), so the outer
`Option` is "the column exists in the file" and the inner one the cleaned
cell. -/
structure FilaCsv where
  nombre : Option String := none
  codigo_sku : Option String := none
  categoria : Option String := none
  precio_unitario : Option String := none
  condiciones_almacenamiento : Option String := none
  fecha_vencimiento : Option String := none
  proveedor_id : Option String := none
  usuario_registro : Option (Option String) := none
  estado : Option (Option String) := none
  url_certificacion : Option (Option String) := none
  tipo_certificacion : Option (Option String) := none
  fecha_vencimiento_cert : Option (Option String) := none
  fila : Nat := 0
deriving DecidableEq

/-- Columns `COLUMNAS_REQUERIDAS` (`csv_service.py:21-29`). -/
def COLUMNAS_REQUERIDAS : List String :=
  ["nombre", "codigo_sku", "categoria", "precio_unitario",
   "condiciones_almacenamiento", "fecha_vencimiento", "proveedor_id"]

/-- Lookup `producto_data.get(c)` over the required columns. -/
def getColumna (row : FilaCsv) (c : String) : Option String :=
  if c = "nombre" then row.nombre
  else if c = "codigo_sku" then row.codigo_sku
  else if c = "categoria" then row.categoria
  else if c = "precio_unitario" then row.precio_unitario
  else if c = "condiciones_almacenamiento" then row.condiciones_almacenamiento
  else if c = "fecha_vencimiento" then row.fecha_vencimiento
  else if c = "proveedor_id" then row.proveedor_id
  else none

/-- Truthiness of `producto_data.get(campo)` (`csv_service.py:152`). -/
def campoPresenteCsv (v : Option String) : Bool :=
  match v with
  | none => false
  | some s => !s.isEmpty

/-- Lookup `producto_data.get(campo, valor_defecto)`: the default applies only when
the column is absent; a present-but-empty cell yields the cleaned `None`. -/
def celdaGet (c : Option (Option String)) (dflt : String) : Option String :=
  match c with
  | none => some dflt
  | some v => v

/-- List `CATEGORIAS_VALIDAS` (`models/producto.py:5`). -/
def CATEGORIAS_VALIDAS : List String := ["medicamento", "insumo", "reactivo", "dispositivo"]

/-- Test that `pre` starts `s`, as `s.startswith(pre)`. -/
def comienzaCon (s pre : String) : Bool := pre.data.isPrefixOf s.data

/-- Method `ProductoValidator.validar_formato_sku` (`validators.py:40-54`): 3-50
characters drawn from `[A-Za-z0-9-_]`. -/
def validar_formato_sku (sku : String) : Bool :=
  entre 3 sku.length 50 &&
    sku.data.all fun c => c.isAlpha || c.isDigit || c == '-' || c == '_'

/-- Decidable equality for `Except`, used to evaluate validator results on
concrete rows. -/
instance {ε α : Type} [DecidableEq ε] [DecidableEq α] : DecidableEq (Except ε α) := fun a b =>
  match a, b with
  | .error x, .error y =>
    if h : x = y then isTrue (h ▸ rfl)
    else isFalse fun hc => h (by injection hc)
  | .error _, .ok _ => isFalse fun hc => by injection hc
  | .ok _, .error _ => isFalse fun hc => by injection hc
  | .ok x, .ok y =>
    if h : x = y then isTrue (h ▸ rfl)
    else isFalse fun hc => h (by injection hc)

/-- The certification block of `validar_producto_csv`
(`csv_service.py:236-273`).  A present-but-empty `url_certificacion` (or
`tipo_certificacion` / `fecha_vencimiento_cert`) cell is the cleaned `None`,
whose `.strip()` raises `AttributeError`, caught at `csv_service.py:384` as
`ERROR_INESPERADO`.  A valid row yields its SKU, the key the import loop
checks and persists against. -/
def validarCertificacion (row : FilaCsv) : Except String String :=
  match celdaGet row.url_certificacion "" with
  | none => .error "ERROR_INESPERADO"
  | some url0 =>
    let url := pyStripCad url0
    if url = "" then .ok ((row.codigo_sku).getD "")
    else if !(comienzaCon url "http://" || comienzaCon url "https://") then
      .error "URL_CERTIFICACION_INVALIDA"
    else
      match celdaGet row.tipo_certificacion "" with
      | none => .error "ERROR_INESPERADO"
      | some _ =>
        match celdaGet row.fecha_vencimiento_cert "" with
        | none => .error "ERROR_INESPERADO"
        | some fc0 =>
          let fc := pyStripCad fc0
          if fc = "" then .ok ((row.codigo_sku).getD "")
          else
            match validar_fecha fc with
            | none => .error "FECHA_CERT_INVALIDA"
            | some _ => .ok ((row.codigo_sku).getD "")

/-- Method `CSVProductoService.validar_producto_csv` (`csv_service.py:134-274`):
the first failing check raises; the raised `codigo` is returned as the
error.  A valid row yields its SKU. -/
def validar_producto_csv (row : FilaCsv) : Except String String :=
  let faltantes := COLUMNAS_REQUERIDAS.filter fun c => !campoPresenteCsv (getColumna row c)
  if !faltantes.isEmpty then .error "DATOS_INVALIDOS"
  else if !validar_formato_sku ((row.codigo_sku).getD "") then .error "SKU_INVALIDO"
  else if !CATEGORIAS_VALIDAS.contains ((row.categoria).getD "") then .error "CATEGORIA_INVALIDA"
  else
    match pyFloat ((row.precio_unitario).getD "") with
    | none => .error "PRECIO_INVALIDO"
    | some precio =>
      -- `precio <= 0` iff the numerator is, the denominator being positive
      if precio.num ≤ 0 then .error "PRECIO_INVALIDO"
      else
        match pyInt ((row.proveedor_id).getD "") with
        | none => .error "PROVEEDOR_ID_INVALIDO"
        | some _ =>
          match validar_fecha ((row.fecha_vencimiento).getD "") with
          | none => .error "FECHA_INVALIDA"
          | some _ =>
            match celdaGet row.estado "Activo" with
            | some "Activo" => validarCertificacion row
            | some "Inactivo" => validarCertificacion row
            | _ => .error "ESTADO_INVALIDO"

/-- The products table, reduced to the unique `codigo_sku` column — the only
product datum the import loop reads back (`csv_service.py:319`) or that
distinguishes persisted rows for the claims at hand.  `confirmados` is the
committed table, `pendientes` the uncommitted session inserts. -/
structure EstadoBd where
  confirmados : List String
  pendientes : List String
deriving DecidableEq

/-- Query `Producto.query.filter_by(codigo_sku=sku).first()` under SQLAlchemy
autoflush: pending session inserts are visible (`csv_service.py:319`). -/
def skuExiste (bd : EstadoBd) (sku : String) : Bool :=
  (bd.confirmados ++ bd.pendientes).contains sku

/-- The `for producto_data in productos_data` loop of
`importar_productos_csv` (`csv_service.py:306-391`): a row failing
validation, or whose SKU the lookup already finds, counts `fallido` with its
`(fila, sku, codigo)`; otherwise the product joins the session and the row
counts `exitoso`.  Returns
`(exitosos, fallidos, detalles_exitosos, detalles_errores, pendientes)`. -/
def importarAux (confirmados : List String) (pendientes : List String) :
    List FilaCsv →
      Nat × Nat × List (Nat × String) × List (Nat × String × String) × List String
  | [] => (0, 0, [], [], pendientes)
  | row :: resto =>
    match validar_producto_csv row with
    | .error codigo =>
      let r := importarAux confirmados pendientes resto
      (r.1, r.2.1 + 1, r.2.2.1, (row.fila, (row.codigo_sku).getD "N/A", codigo) :: r.2.2.2.1,
        r.2.2.2.2)
    | .ok sku =>
      if skuExiste ⟨confirmados, pendientes⟩ sku then
        let r := importarAux confirmados pendientes resto
        (r.1, r.2.1 + 1, r.2.2.1, (row.fila, sku, "SKU_DUPLICADO") :: r.2.2.2.1, r.2.2.2.2)
      else
        let r := importarAux confirmados (pendientes ++ [sku]) resto
        (r.1 + 1, r.2.1, (row.fila, sku) :: r.2.2.1, r.2.2.2.1, r.2.2.2.2)

/-- Result dict of the synchronous import (`csv_service.py:297-303`). -/
structure ResultadosCsv where
  total_filas : Nat
  exitosos : Nat
  fallidos : Nat
  detalles_exitosos : List (Nat × String)
  detalles_errores : List (Nat × String × String)
deriving DecidableEq

/-- Method `CSVProductoService.importar_productos_csv` (`csv_service.py:276-407`):
runs the row loop, then commits the session iff at least one row succeeded
and rolls it back otherwise.  Returns the result dict, the final table, and
whether `db.session.commit()` ran. -/
def importar_productos_csv (bd : EstadoBd) (rows : List FilaCsv) :
    ResultadosCsv × EstadoBd × Bool :=
  let r := importarAux bd.confirmados bd.pendientes rows
  let res : ResultadosCsv := ⟨rows.length, r.1, r.2.1, r.2.2.1, r.2.2.2.1⟩
  if 0 < r.1 then (res, ⟨bd.confirmados ++ r.2.2.2.2, []⟩, true)
  else (res, ⟨bd.confirmados, []⟩, false)

/-! ## ImportJob (`productos_microservice/app/models/import_job.py`) and the
SQS worker (`productos_microservice/app/workers/sqs_worker.py`) -/

/-- Row-error record persisted in `detalles_errores` (shape as mocked in
`tests/test_worker.py:357-365`). -/
structure ErrorFilaJob where
  fila : Nat
  sku : String
  error : String
  codigo : String
deriving DecidableEq

/-- The capped error payload stored on completion
(`tests/test_worker.py:394-398`). -/
structure DetallesErrores where
  errores : List ErrorFilaJob
  total_errores : Nat
  errores_capturados : Nat
deriving DecidableEq

/-- The `ImportJob` columns the worker touches (`import_job.py:9-52`);
timestamps are reduced to set-or-not flags. -/
structure Job where
  estado : String
  mensaje_error : Option String := none
  exitosos : Nat := 0
  fallidos : Nat := 0
  progreso : Nat := 0
  detalles_errores : Option DetallesErrores := none
  fecha_inicio_proceso : Bool := false
  fecha_finalizacion : Bool := false
deriving DecidableEq

/-- Method `ImportJob.marcar_como_procesando` (`import_job.py:134-137`):
unconditionally sets `estado = 'PROCESANDO'`. -/
def marcar_como_procesando (j : Job) : Job :=
  { j with estado := "PROCESANDO", fecha_inicio_proceso := true }

/-- Method `ImportJob.marcar_como_fallido` (`import_job.py:153-162`). -/
def marcar_como_fallido (j : Job) (msg : String) : Job :=
  { j with estado := "FALLIDO", mensaje_error := some msg, fecha_finalizacion := true }

/-- Method `ImportJob.es_terminal` (`import_job.py:164-171`). -/
def es_terminal (j : Job) : Bool :=
  ["COMPLETADO", "FALLIDO", "CANCELADO"].contains j.estado

/-- Modelled from the spec: the revision of `ImportJob.marcar_como_completado`
that the worker invokes as `marcar_como_completado(exitosos=…, fallidos=…,
errores=…)` (`sqs_worker.py:134-138`) is not under `src/` — `import_job.py`
holds a superseded `marcar_como_completado(mensaje=None)` without those
parameters.  Per spec §4.4 (`append_error(job_id, row_error, cap=100)`
stores up to `cap` entries and tracks `total_errors` separately so
truncation is visible to clients) and the worker tests
(`tests/test_worker.py:392-398`), it stores at most 100 error entries plus
the full count. -/
def marcar_como_completado_worker (j : Job) (exitosos fallidos : Nat)
    (errores : List ErrorFilaJob) : Job :=
  { j with
    estado := "COMPLETADO", progreso := 100, fecha_finalizacion := true
    exitosos := exitosos, fallidos := fallidos
    detalles_errores := some
      { errores := errores.take 100
        total_errores := errores.length
        errores_capturados := (errores.take 100).length } }

/-- Parsed JSON body of a queue message; a `none` field was absent. -/
structure CuerpoMensaje where
  job_id : Option String := none
  s3_key : Option String := none
deriving DecidableEq

/-- A received SQS message; `body = none` models a `Body` that `json.loads`
rejects. -/
structure MensajeSqs where
  receiptHandle : String := ""
  body : Option CuerpoMensaje := none
deriving DecidableEq

/-- Outcome of `s3_service.descargar_csv` (`sqs_worker.py:89-97`): content,
a falsy result, or a raised exception. -/
inductive DescargaS3
  | contenido (csv : String)
  | vacia
  | excepcion (e : String)
deriving DecidableEq

/-- Modelled from the spec: the outcome of
`CSVProductoService.procesar_csv_desde_contenido` (`sqs_worker.py:126-130`),
whose definition is not under `src/` (only this call site and the mocks in
`tests/test_worker.py` refer to it).  Per spec §4.5 step 6 the worker only
branches on whether the returned dict reports `estado == 'completado'` —
carrying `exitosos`, `fallidos`, `detalles_errores` and an optional
`error` — or the call raises. -/
inductive ResultadoProcesoCsv
  | resultado (estado : String) (exitosos fallidos : Nat)
      (errores : List ErrorFilaJob) (errorMsg : Option String)
  | excepcion (e : String)
deriving DecidableEq

/-- The job table, keyed by job id. -/
def AlmacenJobs : Type := String → Option Job

/-- Single-row update of the job table. -/
def actualizarJob (st : AlmacenJobs) (id : String) (j : Job) : AlmacenJobs :=
  fun k => if k = id then some j else st k

/-- Effects of one `procesar_mensaje` call: the job table afterwards,
whether `eliminar_mensaje` ran, and the returned boolean. -/
structure SalidaWorker where
  jobs : AlmacenJobs
  mensajeEliminado : Bool
  procesado : Bool

/-- Python truthiness of `job_id` / `s3_key` (`sqs_worker.py:66`). -/
def presente (v : Option String) : Bool :=
  match v with
  | none => false
  | some s => !s.isEmpty

/-- Function `procesar_mensaje` (`sqs_worker.py:41-175`), with the S3 download and
the CSV processing outcomes passed as oracles.  The commit points of the
source are reflected in the order the job table is updated. -/
def procesar_mensaje (jobs : AlmacenJobs) (m : MensajeSqs)
    (s3 : DescargaS3) (csv : ResultadoProcesoCsv) : SalidaWorker :=
  match m.body with
  | none =>
    -- json.loads raises; the handler at line 158 re-parses the body, fails
    -- again, and returns False without deleting the message (line 174)
    ⟨jobs, false, false⟩
  | some cuerpo =>
    if !presente cuerpo.job_id || !presente cuerpo.s3_key then
      -- lines 66-70: invalid message, delete it, return False
      ⟨jobs, true, false⟩
    else
      let jid := cuerpo.job_id.getD ""
      match jobs jid with
      | none =>
        -- lines 77-80: job not found, delete the message, return False
        ⟨jobs, true, false⟩
      | some job =>
        -- lines 82-85: marked PROCESANDO and committed, with no status check
        let job1 := marcar_como_procesando job
        let jobs1 := actualizarJob jobs jid job1
        match s3 with
        | .vacia =>
          -- lines 91-97: mark FALLIDO, delete the message, return False
          let job2 := marcar_como_fallido job1
            ("No se pudo descargar el archivo CSV desde S3: " ++ cuerpo.s3_key.getD "")
          ⟨actualizarJob jobs1 jid job2, true, false⟩
        | .excepcion e =>
          -- lines 158-175: mark FALLIDO, keep the message, return False
          let job2 := marcar_como_fallido job1 ("Error en worker: " ++ e)
          ⟨actualizarJob jobs1 jid job2, false, false⟩
        | .contenido _ =>
          match csv with
          | .excepcion e =>
            -- lines 158-175: mark FALLIDO, keep the message, return False
            let job2 := marcar_como_fallido job1 ("Error en worker: " ++ e)
            ⟨actualizarJob jobs1 jid job2, false, false⟩
          | .resultado estado ex fa errs errMsg =>
            if estado = "completado" then
              -- lines 133-139 and 145-156: complete, delete, return True
              ⟨actualizarJob jobs1 jid (marcar_como_completado_worker job1 ex fa errs),
                true, true⟩
            else
              -- lines 140-143 and 145-156: fail, delete, return True
              let msg := errMsg.getD "Error desconocido durante el procesamiento"
              ⟨actualizarJob jobs1 jid (marcar_como_fallido job1 msg), true, true⟩

/-! ## SQS publisher (`productos_microservice/app/services/sqs_service.py`) -/

/-- Test `s.endswith(sufijo)`. -/
def terminaEn (s sufijo : String) : Bool := sufijo.data.isSuffixOf s.data

/-- The FIFO-relevant send parameters built by `SQSService.enviar_job_a_cola`
(`sqs_service.py:72-85`): for a `.fifo` queue name the fixed group id
`'productos-import'` and the job id as de-duplication id are added. -/
structure ParametrosEnvio where
  messageGroupId : Option String
  messageDeduplicationId : Option String
deriving DecidableEq

/-- Parameter construction of `enviar_job_a_cola` (`sqs_service.py:79-82`). -/
def enviar_job_a_cola (queueName job_id : String) : ParametrosEnvio :=
  if terminaEn queueName ".fifo" then ⟨some "productos-import", some job_id⟩
  else ⟨none, none⟩

/-- A delivery on a FIFO queue. -/
structure MensajeFifo where
  groupId : String
  dedupId : String
deriving DecidableEq

/-- Modelled from the spec: FIFO-queue de-duplication (spec §4.5 and the
glossary's "De-duplication id") — the backend collapses a publish whose
de-duplication id is already present, creating no second delivery. -/
def encolarFifo (cola : List MensajeFifo) (m : MensajeFifo) : List MensajeFifo :=
  if cola.any (fun x => x.dedupId == m.dedupId) then cola else cola ++ [m]

/-! ## C1 — routing boundary -/

/-- C1: the import endpoint selects asynchronous processing iff the number
of data lines of the raw upload (lines minus the header) is at least the
threshold 100 or `forzar_asincrono` is true; a file with 99 data rows is
processed synchronously, one with 100 data rows asynchronously. -/
theorem ruteo_importacion_csv :
    (∀ contenido forzar, usar_asincrono contenido forzar = true ↔
      UMBRAL_ASINCRONO ≤ num_filas contenido ∨ forzar = true) ∧
    num_filas (csvConFilas 99) = 99 ∧ usar_asincrono (csvConFilas 99) false = false ∧
    num_filas (csvConFilas 100) = 100 ∧ usar_asincrono (csvConFilas 100) false = true := by
  refine ⟨fun c f => ?_, by decide, by decide, by decide, by decide⟩
  simp [usar_asincrono]

/-! ## C2 — every row is counted exactly once -/

/-- In the web batch loop, `total` always equals `successful` plus the
number of recorded failures. -/
theorem batchAux_conteo (rows : List FilaWeb) :
    ∀ (idx : Nat) (seen : List String),
      (batchAux idx seen rows).1 =
        (batchAux idx seen rows).2.1 + (batchAux idx seen rows).2.2.1.length := by
  induction rows with
  | nil => intro idx seen; simp [batchAux]
  | cons row resto ih =>
    intro idx seen
    simp only [batchAux]
    have h := ih (idx + 1) (validate_row seen row).2
    split
    · dsimp only
      omega
    · dsimp only
      simp only [List.length_cons]
      omega

/-- In the microservice import loop, each row increments exactly one of
`exitosos` and `fallidos`. -/
theorem importarAux_conteo (rows : List FilaCsv) :
    ∀ (conf pend : List String),
      (importarAux conf pend rows).1 + (importarAux conf pend rows).2.1 = rows.length := by
  induction rows with
  | nil => intro conf pend; simp [importarAux]
  | cons row resto ih =>
    intro conf pend
    simp only [importarAux, List.length_cons]
    cases h : validar_producto_csv row with
    | error codigo =>
      simp only [h]
      have := ih conf pend
      try dsimp only
      omega
    | ok sku =>
      simp only [h]
      split
      · have := ih conf pend
        try dsimp only
        omega
      · have := ih conf (pend ++ [sku])
        try dsimp only
        omega

/-- C2: for every CSV that passes structural validation, each data row is
counted exactly once as successful or failed: in the web batch validator
`total = successful + failed`, and in the microservice synchronous import
`total_filas = exitosos + fallidos`. -/
theorem total_igual_exitosos_mas_fallidos :
    (∀ rows : List FilaWeb,
      (procesar_producto_batch rows).total =
        (procesar_producto_batch rows).successful + (procesar_producto_batch rows).failed) ∧
    (∀ (bd : EstadoBd) (rows : List FilaCsv),
      (importar_productos_csv bd rows).1.total_filas =
        (importar_productos_csv bd rows).1.exitosos +
          (importar_productos_csv bd rows).1.fallidos) := by
  constructor
  · intro rows
    simpa [procesar_producto_batch] using batchAux_conteo rows 1 []
  · intro bd rows
    have h := importarAux_conteo rows bd.confirmados bd.pendientes
    simp only [importar_productos_csv]
    split <;> simp <;> omega

/-! ## C10 — commit only with at least one success -/

/-- C10: the synchronous import commits the session iff at least one row
succeeded; a fully failed import rolls back and leaves the product table
unchanged. -/
theorem commit_solo_si_hay_exitosos :
    ∀ (bd : EstadoBd) (rows : List FilaCsv),
      ((importar_productos_csv bd rows).1.exitosos = 0 →
        (importar_productos_csv bd rows).2.2 = false ∧
        (importar_productos_csv bd rows).2.1 = ⟨bd.confirmados, []⟩) ∧
      (0 < (importar_productos_csv bd rows).1.exitosos →
        (importar_productos_csv bd rows).2.2 = true) := by
  intro bd rows
  have hex : (importar_productos_csv bd rows).1.exitosos
      = (importarAux bd.confirmados bd.pendientes rows).1 := by
    simp only [importar_productos_csv]
    split <;> rfl
  constructor
  · intro h0
    rw [hex] at h0
    have hneg : ¬ 0 < (importarAux bd.confirmados bd.pendientes rows).1 := by omega
    constructor <;> simp [importar_productos_csv, hneg]
  · intro hp
    rw [hex] at hp
    simp [importar_productos_csv, hp]

/-- An all-empty CSV row: every required column is missing. -/
def filaVacia : FilaCsv := {}

theorem commit_solo_si_hay_exitosos_witness :
    (importar_productos_csv ⟨["SKU-EXISTENTE"], []⟩ [filaVacia]).1.exitosos = 0 ∧
    (importar_productos_csv ⟨["SKU-EXISTENTE"], []⟩ [filaVacia]).2.2 = false ∧
    (importar_productos_csv ⟨["SKU-EXISTENTE"], []⟩ [filaVacia]).2.1 = ⟨["SKU-EXISTENTE"], []⟩ := by
  have h := (commit_solo_si_hay_exitosos ⟨["SKU-EXISTENTE"], []⟩ [filaVacia]).1 (by decide)
  exact ⟨by decide, h.1, h.2⟩

/-- A nonempty string is not `isEmpty`. -/
theorem cadenaNoVacia {s : String} (h : s ≠ "") : s.isEmpty = false := by
  cases he : s.isEmpty
  · rfl
  · exact absurd ((String.isEmpty_iff s).mp he) h

/-! ## C3 — the worker and terminal job states -/

/-- An `ImportJob` in the terminal state `CANCELADO`. -/
def jobCancelado : Job := { estado := "CANCELADO" }

/-- A one-job table holding only the cancelled job. -/
def almacenCancelado : AlmacenJobs :=
  fun k => if k = "job-1" then some jobCancelado else none

/-- A well-formed queue message referencing the cancelled job. -/
def mensajeJobCancelado : MensajeSqs :=
  { receiptHandle := "rh-1"
    body := some { job_id := some "job-1", s3_key := some "archivo.csv" } }

/-- C3 counterexample: `procesar_mensaje` performs no status check before
`marcar_como_procesando` — receiving a message for a job already in the
terminal state `CANCELADO`, it transitions the job (here all the way to
`COMPLETADO`), deletes the message only because processing ran, and reports
it processed; the job does not stay `CANCELADO`. -/
theorem trabajador_mueve_job_cancelado :
    es_terminal jobCancelado = true ∧
    ((procesar_mensaje almacenCancelado mensajeJobCancelado (DescargaS3.contenido "csv")
        (ResultadoProcesoCsv.resultado "completado" 1 0 [] none)).jobs "job-1").map Job.estado
      = some "COMPLETADO" ∧
    (procesar_mensaje almacenCancelado mensajeJobCancelado (DescargaS3.contenido "csv")
        (ResultadoProcesoCsv.resultado "completado" 1 0 [] none)).procesado = true := by
  exact ⟨rfl, rfl, rfl⟩

/-- C3 amended: the worker never inspects the job's current status: once the
message parses and the job is found, it marks the job `PROCESANDO` and
carries on — so a job in any state, the terminal `CANCELADO` included, is
transitioned (here to `COMPLETADO`) and the message deleted, rather than
being left `CANCELADO` with the message discarded. -/
theorem trabajador_procesa_sin_verificar_estado :
    ∀ (jobs : AlmacenJobs) (m : MensajeSqs) (cuerpo : CuerpoMensaje) (jid : String) (job : Job)
      (contenido : String) (ex fa : Nat) (errs : List ErrorFilaJob) (errMsg : Option String),
      m.body = some cuerpo → cuerpo.job_id = some jid → jid ≠ "" →
      presente cuerpo.s3_key = true → jobs jid = some job →
      ((procesar_mensaje jobs m (DescargaS3.contenido contenido)
          (ResultadoProcesoCsv.resultado "completado" ex fa errs errMsg)).jobs jid).map
          Job.estado = some "COMPLETADO" ∧
      (procesar_mensaje jobs m (DescargaS3.contenido contenido)
          (ResultadoProcesoCsv.resultado "completado" ex fa errs errMsg)).mensajeEliminado
        = true ∧
      (procesar_mensaje jobs m (DescargaS3.contenido contenido)
          (ResultadoProcesoCsv.resultado "completado" ex fa errs errMsg)).procesado = true := by
  intro jobs m cuerpo jid job contenido ex fa errs errMsg hb hj hjne hs3 hfind
  have hjid : presente cuerpo.job_id = true := by
    rw [hj]
    simp [presente, cadenaNoVacia hjne]
  have hgetd : cuerpo.job_id.getD "" = jid := by rw [hj]; rfl
  simp only [procesar_mensaje, hb, hjid, hs3, hgetd, hfind, Bool.not_true, Bool.or_self,
    Bool.false_or, if_neg, reduceIte, actualizarJob, marcar_como_completado_worker,
    marcar_como_procesando]
  simp [actualizarJob]

/-- A job table used by the worker witnesses. -/
def almacenEnCola : AlmacenJobs :=
  fun k => if k = "job-2" then some { estado := "EN_COLA" } else none

theorem trabajador_procesa_sin_verificar_estado_witness :
    ((procesar_mensaje almacenCancelado mensajeJobCancelado (DescargaS3.contenido "a,b")
        (ResultadoProcesoCsv.resultado "completado" 2 1 [] none)).jobs "job-1").map Job.estado
      = some "COMPLETADO" ∧
    (procesar_mensaje almacenCancelado mensajeJobCancelado (DescargaS3.contenido "a,b")
        (ResultadoProcesoCsv.resultado "completado" 2 1 [] none)).mensajeEliminado = true ∧
    (procesar_mensaje almacenCancelado mensajeJobCancelado (DescargaS3.contenido "a,b")
        (ResultadoProcesoCsv.resultado "completado" 2 1 [] none)).procesado = true :=
  trabajador_procesa_sin_verificar_estado almacenCancelado mensajeJobCancelado
    { job_id := some "job-1", s3_key := some "archivo.csv" } "job-1" jobCancelado
    "a,b" 2 1 [] none rfl rfl (by decide) rfl rfl

/-! ## C5 — poison messages -/

/-- A message whose `Body` is not valid JSON. -/
def mensajeIlegible : MensajeSqs := { receiptHandle := "rh-2", body := none }

/-- The empty job table. -/
def almacenVacio : AlmacenJobs := fun _ => none

/-- C5 counterexample: for the poison message whose body `json.loads`
rejects, the worker returns not-processed and mutates no job — but it does
NOT delete the message (the `except` handler at `sqs_worker.py:158-175`
leaves it in the queue), contrary to the claim that every poison message is
deleted immediately. -/
theorem mensaje_ilegible_queda_en_cola :
    (procesar_mensaje almacenVacio mensajeIlegible (DescargaS3.contenido "x")
      (ResultadoProcesoCsv.resultado "completado" 0 0 [] none)).mensajeEliminado = false ∧
    (procesar_mensaje almacenVacio mensajeIlegible (DescargaS3.contenido "x")
      (ResultadoProcesoCsv.resultado "completado" 0 0 [] none)).procesado = false ∧
    (procesar_mensaje almacenVacio mensajeIlegible (DescargaS3.contenido "x")
      (ResultadoProcesoCsv.resultado "completado" 0 0 [] none)).jobs = almacenVacio :=
  ⟨rfl, rfl, rfl⟩

/-- C5 amended: a message lacking a truthy `job_id` or `s3_key`, or whose
`job_id` has no `ImportJob` in the table, is deleted immediately with no job
mutated and not-processed returned; a message with an unparseable body also
mutates nothing and returns not-processed, but is left in the queue rather
than deleted. -/
theorem manejo_mensajes_veneno :
    ∀ (jobs : AlmacenJobs) (m : MensajeSqs) (s3 : DescargaS3) (csv : ResultadoProcesoCsv),
      (m.body = none → procesar_mensaje jobs m s3 csv = ⟨jobs, false, false⟩) ∧
      (∀ cuerpo, m.body = some cuerpo →
        (presente cuerpo.job_id = false ∨ presente cuerpo.s3_key = false) →
        procesar_mensaje jobs m s3 csv = ⟨jobs, true, false⟩) ∧
      (∀ cuerpo, m.body = some cuerpo → presente cuerpo.job_id = true →
        presente cuerpo.s3_key = true → jobs (cuerpo.job_id.getD "") = none →
        procesar_mensaje jobs m s3 csv = ⟨jobs, true, false⟩) := by
  intro jobs m s3 csv
  refine ⟨fun hb => by simp [procesar_mensaje, hb], fun cuerpo hb hfalso => ?_,
    fun cuerpo hb hjid hs3 hnone => ?_⟩
  · rcases hfalso with h | h <;> simp [procesar_mensaje, hb, h]
  · simp [procesar_mensaje, hb, hjid, hs3, hnone]

theorem manejo_mensajes_veneno_witness :
    procesar_mensaje almacenVacio
      { receiptHandle := "rh-3", body := some { job_id := some "job-9", s3_key := some "k.csv" } }
      DescargaS3.vacia (ResultadoProcesoCsv.excepcion "fallo")
      = ⟨almacenVacio, true, false⟩ :=
  (manejo_mensajes_veneno almacenVacio
      { receiptHandle := "rh-3", body := some { job_id := some "job-9", s3_key := some "k.csv" } }
      DescargaS3.vacia (ResultadoProcesoCsv.excepcion "fallo")).2.2
    { job_id := some "job-9", s3_key := some "k.csv" } rfl rfl rfl rfl

/-! ## C6 — unexpected exceptions fail the job and keep the message -/

/-- C6: when processing raises after the job was found — the S3 download or
the CSV processing throws — the worker marks the job `FALLIDO` with a
message summarizing the exception, does not delete the queue message, and
returns not-processed. -/
theorem excepcion_marca_fallido_sin_borrar :
    ∀ (jobs : AlmacenJobs) (m : MensajeSqs) (cuerpo : CuerpoMensaje) (jid : String) (job : Job)
      (e : String),
      m.body = some cuerpo → cuerpo.job_id = some jid → jid ≠ "" →
      presente cuerpo.s3_key = true → jobs jid = some job →
      (∀ csv,
        ((procesar_mensaje jobs m (DescargaS3.excepcion e) csv).jobs jid).map Job.estado
          = some "FALLIDO" ∧
        ((procesar_mensaje jobs m (DescargaS3.excepcion e) csv).jobs jid).map Job.mensaje_error
          = some (some ("Error en worker: " ++ e)) ∧
        (procesar_mensaje jobs m (DescargaS3.excepcion e) csv).mensajeEliminado = false ∧
        (procesar_mensaje jobs m (DescargaS3.excepcion e) csv).procesado = false) ∧
      (∀ contenido,
        ((procesar_mensaje jobs m (DescargaS3.contenido contenido)
            (ResultadoProcesoCsv.excepcion e)).jobs jid).map Job.estado = some "FALLIDO" ∧
        ((procesar_mensaje jobs m (DescargaS3.contenido contenido)
            (ResultadoProcesoCsv.excepcion e)).jobs jid).map Job.mensaje_error
          = some (some ("Error en worker: " ++ e)) ∧
        (procesar_mensaje jobs m (DescargaS3.contenido contenido)
            (ResultadoProcesoCsv.excepcion e)).mensajeEliminado = false ∧
        (procesar_mensaje jobs m (DescargaS3.contenido contenido)
            (ResultadoProcesoCsv.excepcion e)).procesado = false) := by
  intro jobs m cuerpo jid job e hb hj hjne hs3 hfind
  have hjid : presente cuerpo.job_id = true := by
    rw [hj]
    simp [presente, cadenaNoVacia hjne]
  have hgetd : cuerpo.job_id.getD "" = jid := by rw [hj]; rfl
  constructor
  · intro csv
    simp [procesar_mensaje, hb, hjid, hs3, hgetd, hfind, actualizarJob, marcar_como_fallido]
  · intro contenido
    simp [procesar_mensaje, hb, hjid, hs3, hgetd, hfind, actualizarJob, marcar_como_fallido]

theorem excepcion_marca_fallido_sin_borrar_witness :
    ((procesar_mensaje almacenEnCola
        { receiptHandle := "rh-4", body := some { job_id := some "job-2", s3_key := some "k.csv" } }
        (DescargaS3.excepcion "S3 timeout")
        (ResultadoProcesoCsv.resultado "completado" 0 0 [] none)).jobs "job-2").map Job.estado
      = some "FALLIDO" ∧
    (procesar_mensaje almacenEnCola
        { receiptHandle := "rh-4", body := some { job_id := some "job-2", s3_key := some "k.csv" } }
        (DescargaS3.excepcion "S3 timeout")
        (ResultadoProcesoCsv.resultado "completado" 0 0 [] none)).mensajeEliminado = false :=
  have h := (excepcion_marca_fallido_sin_borrar almacenEnCola
    { receiptHandle := "rh-4", body := some { job_id := some "job-2", s3_key := some "k.csv" } }
    { job_id := some "job-2", s3_key := some "k.csv" } "job-2" { estado := "EN_COLA" }
    "S3 timeout" rfl rfl (by decide) rfl rfl).1
    (ResultadoProcesoCsv.resultado "completado" 0 0 [] none)
  ⟨h.1, h.2.2.1⟩

/-! ## C7 — error capping on completion -/

/-- C7: when a completed import carries more than 100 row failures, the job
stores exactly 100 row-error entries in `detalles_errores` and separately
records the full error count, so truncation is visible to clients. -/
theorem tope_cien_errores_en_completado :
    ∀ (j : Job) (ex fa : Nat) (errores : List ErrorFilaJob), 100 < errores.length →
      ∃ d, (marcar_como_completado_worker j ex fa errores).detalles_errores = some d ∧
        d.errores.length = 100 ∧ d.total_errores = errores.length := by
  intro j ex fa errs h
  refine ⟨_, rfl, ?_, rfl⟩
  simp only [List.length_take]
  omega

/-- A generic row error, as in the worker tests. -/
def errorFilaGenerico : ErrorFilaJob :=
  { fila := 1, sku := "SKU-1", error := "Error de validación", codigo := "VALIDACION" }

theorem tope_cien_errores_en_completado_witness :
    ∃ d, (marcar_como_completado_worker { estado := "PROCESANDO" } 50 150
        (List.replicate 150 errorFilaGenerico)).detalles_errores = some d ∧
      d.errores.length = 100 ∧ d.total_errores = 150 := by
  obtain ⟨d, h1, h2, h3⟩ := tope_cien_errores_en_completado { estado := "PROCESANDO" } 50 150
    (List.replicate 150 errorFilaGenerico) (by simp)
  exact ⟨d, h1, h2, by simpa using h3⟩

/-! ## C9 — FIFO publisher parameters and transport de-duplication -/

/-- After an enqueue, some delivery carries the enqueued de-duplication
id. -/
theorem fifo_dedup_presente (cola : List MensajeFifo) (m : MensajeFifo) :
    (encolarFifo cola m).any (fun x => x.dedupId == m.dedupId) = true := by
  unfold encolarFifo
  split
  · assumption
  · simp

/-- C9: publishing to a FIFO-style queue (name ending in `.fifo`) always
sets the fixed group id `productos-import` and uses the job id as
de-duplication id, and under the backend's de-duplication a second publish
carrying the same job id adds no second delivery. -/
theorem publicacion_fifo_idempotente :
    ∀ (queueName job_id : String), terminaEn queueName ".fifo" = true →
      enviar_job_a_cola queueName job_id = ⟨some "productos-import", some job_id⟩ ∧
      ∀ (cola : List MensajeFifo) (g g' : String),
        encolarFifo (encolarFifo cola ⟨g, job_id⟩) ⟨g', job_id⟩
          = encolarFifo cola ⟨g, job_id⟩ := by
  intro queueName job_id h
  constructor
  · simp [enviar_job_a_cola, h]
  · intro cola g g'
    have hany := fifo_dedup_presente cola ⟨g, job_id⟩
    show (if (encolarFifo cola ⟨g, job_id⟩).any (fun x => x.dedupId == job_id) = true
        then encolarFifo cola ⟨g, job_id⟩
        else encolarFifo cola ⟨g, job_id⟩ ++ [⟨g', job_id⟩])
      = encolarFifo cola ⟨g, job_id⟩
    rw [if_pos hany]

theorem publicacion_fifo_idempotente_witness :
    enviar_job_a_cola "cola-productos.fifo" "job-7"
      = ⟨some "productos-import", some "job-7"⟩ ∧
    encolarFifo (encolarFifo [] ⟨"productos-import", "job-7"⟩)
        ⟨"productos-import", "job-7"⟩
      = encolarFifo [] ⟨"productos-import", "job-7"⟩ :=
  have h := publicacion_fifo_idempotente "cola-productos.fifo" "job-7" (by decide)
  ⟨h.1, h.2 [] "productos-import" "productos-import"⟩

/-! ## Characterizing `validate_row` -/

/-- A missing-fields message differs from any string not starting with
`'C'`. -/
theorem campos_faltantes_distinto (x s : String) (hs : s.data.head? ≠ some 'C') :
    ("Campos faltantes: " ++ x) ≠ s := by
  intro h
  apply hs
  rw [← h]
  rfl

/-- The `skus_seen` update performed by `validate_row`. -/
theorem validate_row_vistos (seen : List String) (row : FilaWeb) :
    (validate_row seen row).2
      = if valorRecortado row.codigo_sku ≠ "" ∧
            seen.contains (valorRecortado row.codigo_sku) = false
        then seen ++ [valorRecortado row.codigo_sku] else seen := rfl

/-- Set `skus_seen` only grows. -/
theorem vistos_crecen (seen : List String) (row : FilaWeb) {x : String} (hx : x ∈ seen) :
    x ∈ (validate_row seen row).2 := by
  rw [validate_row_vistos]
  split
  · exact List.mem_append_left _ hx
  · exact hx

/-- Everything in the updated `skus_seen` was seen before or is this row's
stripped SKU. -/
theorem vistos_origen (seen : List String) (row : FilaWeb) {x : String}
    (hx : x ∈ (validate_row seen row).2) :
    x ∈ seen ∨ x = valorRecortado row.codigo_sku := by
  rw [validate_row_vistos] at hx
  revert hx
  split
  · intro hx
    rcases List.mem_append.mp hx with h | h
    · exact Or.inl h
    · exact Or.inr (List.mem_singleton.mp h)
  · exact Or.inl

/-- A nonempty stripped SKU is in `skus_seen` after its row is validated. -/
theorem sku_queda_visto (seen : List String) (row : FilaWeb)
    (h : valorRecortado row.codigo_sku ≠ "") :
    valorRecortado row.codigo_sku ∈ (validate_row seen row).2 := by
  rw [validate_row_vistos]
  split
  · exact List.mem_append_right _ (List.mem_singleton_self _)
  · next hcond =>
    cases hc : seen.contains (valorRecortado row.codigo_sku)
    · exact absurd ⟨h, hc⟩ hcond
    · exact List.elem_iff.mp hc

/-- The duplicate-SKU error appears in a row's errors exactly when the row's
stripped SKU is nonempty and already in `skus_seen` — independently of the
validity of every other field. -/
theorem dup_en_validate_row (seen : List String) (row : FilaWeb) :
    "SKU duplicado en archivo" ∈ (validate_row seen row).1 ↔
      valorRecortado row.codigo_sku ≠ "" ∧
        seen.contains (valorRecortado row.codigo_sku) = true := by
  have hcf : ∀ x : String, ("Campos faltantes: " ++ x) ≠ "SKU duplicado en archivo" :=
    fun x => campos_faltantes_distinto x _ (by decide)
  have hcf2 : ∀ x : String, "SKU duplicado en archivo" ≠ ("Campos faltantes: " ++ x) :=
    fun x => Ne.symm (hcf x)
  simp only [validate_row]
  split_ifs <;> simp_all [List.mem_append]

/-- The expiry-date error appears exactly when the stripped date is nonempty
and no format parses it. -/
theorem fecha_invalida_en_validate_row (seen : List String) (row : FilaWeb) :
    "Fecha inválida" ∈ (validate_row seen row).1 ↔
      valorRecortado row.fecha_vencimiento ≠ "" ∧
        try_parse_date (valorRecortado row.fecha_vencimiento) = none := by
  have hcf : ∀ x : String, ("Campos faltantes: " ++ x) ≠ "Fecha inválida" :=
    fun x => campos_faltantes_distinto x _ (by decide)
  have hcf2 : ∀ x : String, "Fecha inválida" ≠ ("Campos faltantes: " ++ x) :=
    fun x => Ne.symm (hcf x)
  simp only [validate_row]
  split_ifs <;> simp_all [List.mem_append]

/-- The certification-expiry error appears exactly when that stripped field
is nonempty and no format parses it. -/
theorem fecha_cert_invalida_en_validate_row (seen : List String) (row : FilaWeb) :
    "Fecha de certificación inválida" ∈ (validate_row seen row).1 ↔
      valorRecortado row.fecha_vencimiento_cert ≠ "" ∧
        try_parse_date (valorRecortado row.fecha_vencimiento_cert) = none := by
  have hcf : ∀ x : String,
      ("Campos faltantes: " ++ x) ≠ "Fecha de certificación inválida" :=
    fun x => campos_faltantes_distinto x _ (by decide)
  have hcf2 : ∀ x : String, "Fecha de certificación inválida" ≠ ("Campos faltantes: " ++ x) :=
    fun x => Ne.symm (hcf x)
  simp only [validate_row]
  split_ifs <;> simp_all [List.mem_append]

/-! ## C8 — date-format acceptance -/

/-- C8 counterexample: the ISO-8601 date `2025-01-15` parses under ISO (and
the web validator accepts it), yet the productos-microservice validator
`validar_fecha` — the one applied to `fecha_vencimiento` in the CSV import —
rejects it as `FECHA_INVALIDA`, so acceptance there is not "iff one of
ISO-8601, DD/MM/YYYY or DD-MM-YYYY". -/
theorem fecha_iso_rechazada_en_microservicio :
    pyFromIsoformat "2025-01-15" = some ⟨2025, 1, 15⟩ ∧
    try_parse_date "2025-01-15" = some ⟨2025, 1, 15⟩ ∧
    validar_fecha "2025-01-15" = none ∧
    validar_producto_csv
      { nombre := some "Producto", codigo_sku := some "SKU-1"
        categoria := some "insumo", precio_unitario := some "10.5"
        condiciones_almacenamiento := some "seco", fecha_vencimiento := some "2025-01-15"
        proveedor_id := some "1", fila := 2 } = Except.error "FECHA_INVALIDA" :=
  ⟨by decide, by decide, by decide, by decide⟩

/-- C8 amended: in the web batch validator a date field is accepted iff it
parses under one of ISO-8601, DD/MM/YYYY or DD-MM-YYYY, and a nonempty
failing field (expiry or certification expiry) adds the corresponding
date-invalid error; the productos-microservice validator instead accepts a
date iff it parses under DD/MM/YYYY alone. -/
theorem aceptacion_fechas_por_validador :
    (∀ s, (try_parse_date s).isSome = true ↔
      ((pyFromIsoformat s).isSome = true ∨ (strptimeDiaMesAnio '/' s).isSome = true ∨
        (strptimeDiaMesAnio '-' s).isSome = true)) ∧
    (∀ s, (validar_fecha s).isSome = true ↔ (strptimeDiaMesAnio '/' s).isSome = true) ∧
    (∀ seen row, "Fecha inválida" ∈ (validate_row seen row).1 ↔
      valorRecortado row.fecha_vencimiento ≠ "" ∧
        try_parse_date (valorRecortado row.fecha_vencimiento) = none) ∧
    (∀ seen row, "Fecha de certificación inválida" ∈ (validate_row seen row).1 ↔
      valorRecortado row.fecha_vencimiento_cert ≠ "" ∧
        try_parse_date (valorRecortado row.fecha_vencimiento_cert) = none) := by
  refine ⟨fun s => ?_, fun s => Iff.rfl, fecha_invalida_en_validate_row,
    fecha_cert_invalida_en_validate_row⟩
  unfold try_parse_date
  by_cases hs : s = ""
  · subst hs
    decide
  · rw [if_neg hs]
    cases h1 : pyFromIsoformat s <;> cases h2 : strptimeDiaMesAnio '/' s <;>
      cases h3 : strptimeDiaMesAnio '-' s <;> simp [h1, h2, h3]

/-! ## C4 — duplicate SKUs within a file -/

/-- The row at 0-based position `j` (the empty row out of range). -/
def filaEn (rows : List FilaWeb) (j : Nat) : FilaWeb := (rows.drop j).headD {}

/-- The stripped SKU of the row at position `j`. -/
def skuEn (rows : List FilaWeb) (j : Nat) : String :=
  valorRecortado (filaEn rows j).codigo_sku

/-- A SKU already in `skus_seen` is reported duplicate at any later row
carrying it. -/
theorem dup_si_visto (rows : List FilaWeb) :
    ∀ (seen : List String) (j : Nat), j < rows.length → skuEn rows j ≠ "" →
      skuEn rows j ∈ seen →
      "SKU duplicado en archivo" ∈ erroresEnFila seen rows j := by
  induction rows with
  | nil => intro seen j hj hne hmem; simp at hj
  | cons row resto ih =>
    intro seen j hj hne hmem
    cases j with
    | zero =>
      exact (dup_en_validate_row seen row).mpr ⟨hne, List.elem_iff.mpr hmem⟩
    | succ j' =>
      exact ih (validate_row seen row).2 j' (by simpa using hj) hne
        (vistos_crecen seen row hmem)

/-- A SKU occurring at an earlier row is reported duplicate at the later
occurrence, whatever the other fields hold. -/
theorem dup_por_aparicion_previa (rows : List FilaWeb) :
    ∀ (seen : List String) (i j : Nat), i < j → j < rows.length →
      skuEn rows i = skuEn rows j → skuEn rows j ≠ "" →
      "SKU duplicado en archivo" ∈ erroresEnFila seen rows j := by
  induction rows with
  | nil => intro seen i j hij hj heq hne; simp at hj
  | cons row resto ih =>
    intro seen i j hij hj heq hne
    cases j with
    | zero => omega
    | succ j' =>
      cases i with
      | zero =>
        have hrow : skuEn (row :: resto) 0 ≠ "" := by rw [heq]; exact hne
        have hv : skuEn (row :: resto) 0 ∈ (validate_row seen row).2 :=
          sku_queda_visto seen row hrow
        exact dup_si_visto resto (validate_row seen row).2 j' (by simpa using hj) hne
          (heq ▸ hv)
      | succ i' =>
        exact ih (validate_row seen row).2 i' j' (by omega) (by simpa using hj) heq hne

/-- The first row carrying a SKU is never flagged duplicate. -/
theorem primer_no_penalizado (rows : List FilaWeb) :
    ∀ (seen : List String) (j : Nat), j < rows.length → skuEn rows j ≠ "" →
      skuEn rows j ∉ seen → (∀ i, i < j → skuEn rows i ≠ skuEn rows j) →
      "SKU duplicado en archivo" ∉ erroresEnFila seen rows j := by
  induction rows with
  | nil => intro seen j hj _ _ _; simp at hj
  | cons row resto ih =>
    intro seen j hj hne hnov hprim hdup
    cases j with
    | zero =>
      have h := (dup_en_validate_row seen row).mp hdup
      exact hnov (List.elem_iff.mp h.2)
    | succ j' =>
      have h1 : skuEn resto j' ∉ (validate_row seen row).2 := by
        intro hmem
        rcases vistos_origen seen row hmem with h | h
        · exact hnov h
        · exact hprim 0 (by omega) h.symm
      have h2 : ∀ i, i < j' → skuEn resto i ≠ skuEn resto j' :=
        fun i hi => hprim (i + 1) (by omega)
      exact ih (validate_row seen row).2 j' (by simpa using hj) hne h1 h2 hdup

/-- A row whose computed error list is nonempty is recorded among the
batch's failures with its 1-based index and original raw values. -/
theorem error_registrado (rows : List FilaWeb) :
    ∀ (idx : Nat) (seen : List String) (j : Nat), j < rows.length →
      erroresEnFila seen rows j ≠ [] →
      (⟨idx + j, erroresEnFila seen rows j, filaEn rows j⟩ : ErrorFilaWeb)
        ∈ (batchAux idx seen rows).2.2.1 := by
  induction rows with
  | nil => intro idx seen j hj _; simp at hj
  | cons row resto ih =>
    intro idx seen j hj hne
    cases j with
    | zero =>
      have hie : (validate_row seen row).1.isEmpty = false := by
        cases hl : (validate_row seen row).1 with
        | nil => exact absurd hl hne
        | cons a l => rfl
      simp [batchAux, hie]
      exact Or.inl ⟨rfl, rfl⟩
    | succ j' =>
      have h := ih (idx + 1) (validate_row seen row).2 j' (by simpa using hj) hne
      have harr : idx + (j' + 1) = (idx + 1) + j' := by omega
      rw [harr]
      simp only [batchAux]
      split
      · exact h
      · exact List.mem_cons_of_mem _ h

/-- A microservice CSV row that passes every field validation. -/
def filaCsvValida : FilaCsv :=
  { nombre := some "Gasa", codigo_sku := some "SKU-1", categoria := some "insumo"
    precio_unitario := some "10", condiciones_almacenamiento := some "seco"
    fecha_vencimiento := some "31/12/2030", proveedor_id := some "1", fila := 2 }

/-- The same SKU again, now with an unparseable price. -/
def filaCsvDuplicadaInvalida : FilaCsv :=
  { filaCsvValida with precio_unitario := some "abc", fila := 3 }

/-- C4 counterexample: in the microservice import, the second occurrence of
`SKU-1` carries an invalid price, and validation raises before the
duplicate lookup runs — the recorded failure for that row is
`PRECIO_INVALIDO`, with no duplicate-SKU error, so a duplicate row is not
"always marked failed with a duplicate-SKU error even when its other fields
are invalid" on that path. -/
theorem duplicado_invalido_sin_error_duplicado :
    (importar_productos_csv ⟨[], []⟩
        [filaCsvValida, filaCsvDuplicadaInvalida]).1.detalles_errores
      = [(3, "SKU-1", "PRECIO_INVALIDO")] := by decide

/-- C4 amended: in the web batch validator a row whose stripped SKU
duplicates one seen at an earlier row of the same file is always recorded
failed with the `SKU duplicado en archivo` error — whatever its other
fields hold, so the row can carry several error strings — and the first row
carrying that SKU never receives the duplicate error; in the microservice
loop a duplicate is flagged `SKU_DUPLICADO` only when the row first passes
field validation. -/
theorem sku_duplicado_siempre_marcado :
    (∀ (rows : List FilaWeb) (i j : Nat), i < j → j < rows.length →
      skuEn rows i = skuEn rows j → skuEn rows j ≠ "" →
      "SKU duplicado en archivo" ∈ erroresEnFila [] rows j ∧
      (⟨j + 1, erroresEnFila [] rows j, filaEn rows j⟩ : ErrorFilaWeb)
        ∈ (procesar_producto_batch rows).errors) ∧
    (∀ (rows : List FilaWeb) (j : Nat), j < rows.length → skuEn rows j ≠ "" →
      (∀ i, i < j → skuEn rows i ≠ skuEn rows j) →
      "SKU duplicado en archivo" ∉ erroresEnFila [] rows j) ∧
    (∀ (conf pend : List String) (row : FilaCsv) (resto : List FilaCsv) (sku : String),
      validar_producto_csv row = Except.ok sku → skuExiste ⟨conf, pend⟩ sku = true →
      (importarAux conf pend (row :: resto)).2.2.2.1.headD (0, "", "")
        = (row.fila, sku, "SKU_DUPLICADO")) := by
  refine ⟨fun rows i j hij hj heq hne => ?_,
    fun rows j hj hne hprim =>
      primer_no_penalizado rows [] j hj hne (List.not_mem_nil _) hprim,
    fun conf pend row resto sku hval hdup => ?_⟩
  · have hd := dup_por_aparicion_previa rows [] i j hij hj heq hne
    refine ⟨hd, ?_⟩
    have hr := error_registrado rows 1 [] j hj (List.ne_nil_of_mem hd)
    rw [Nat.add_comm 1 j] at hr
    exact hr
  · simp [importarAux, hval, hdup]

/-- Web rows sharing the SKU `SKU-1`; the first is otherwise invalid. -/
def filaWebDuplicada1 : FilaWeb := { codigo_sku := some "SKU-1", precio_unitario := some "abc" }

/-- Second occurrence of `SKU-1` in the web batch. -/
def filaWebDuplicada2 : FilaWeb := { codigo_sku := some "SKU-1" }

theorem sku_duplicado_siempre_marcado_witness :
    ("SKU duplicado en archivo" ∈ erroresEnFila [] [filaWebDuplicada1, filaWebDuplicada2] 1 ∧
      (⟨2, erroresEnFila [] [filaWebDuplicada1, filaWebDuplicada2] 1,
          filaEn [filaWebDuplicada1, filaWebDuplicada2] 1⟩ : ErrorFilaWeb)
        ∈ (procesar_producto_batch [filaWebDuplicada1, filaWebDuplicada2]).errors) ∧
    "SKU duplicado en archivo" ∉ erroresEnFila [] [filaWebDuplicada1, filaWebDuplicada2] 0 ∧
    (importarAux [] ["SKU-1"] [filaCsvValida]).2.2.2.1.headD (0, "", "")
      = (2, "SKU-1", "SKU_DUPLICADO") :=
  have h := sku_duplicado_siempre_marcado
  ⟨h.1 [filaWebDuplicada1, filaWebDuplicada2] 0 1 (by decide) (by decide) (by decide)
      (by decide),
    h.2.1 [filaWebDuplicada1, filaWebDuplicada2] 0 (by decide) (by decide)
      (fun i hi => absurd hi (Nat.not_lt_zero i)),
    h.2.2 [] ["SKU-1"] filaCsvValida [] "SKU-1" (by decide) (by decide)⟩
